import Mathlib

/-!
Verification development for a small HTTP API over a document store
(collections: theaters, movies, comments).  Each route handler from the
repository is embedded as a pure Lean function over an explicit store
state.  A handler returns the JSON response body, the HTTP transport
status, the store after the request, and the ordered trace of store
operations (find / findOne / updateOne / deleteOne) it issued.
-/

/-- Modelled from the spec: the store driver identifier-format validation
(`ObjectId.isValid` of the external document-store client, out of scope of
the repository sources).  Per the spec, a canonical store identifier is a
fixed-length 24-character hexadecimal string. -/
def isHexDigit (c : Char) : Bool :=
  (('0' ≤ c) && (c ≤ '9')) || (('a' ≤ c) && (c ≤ 'f')) || (('A' ≤ c) && (c ≤ 'F'))

/-- Modelled from the spec: `ObjectId.isValid`, true exactly on
24-character hexadecimal strings. -/
def ObjectId.isValid (s : String) : Bool :=
  s.length == 24 && s.toList.all isHexDigit

/-- A JSON-ish scalar value stored in a document field: a string, or a
store identifier (ObjectId, carried as its 24-hex string). -/
inductive BVal where
  | s : String → BVal
  | oid : String → BVal
deriving DecidableEq, Repr

/-- JavaScript truthiness of a field value: the empty string is falsy,
every other modelled value is truthy. -/
def BVal.truthy : BVal → Bool
  | .s t => !(t == "")
  | .oid _ => true

/-- A flat document: an association list from field names to values. -/
abbrev Doc := List (String × BVal)

/-- First binding of field `k` in document `d`. -/
def getField (d : Doc) (k : String) : Option BVal :=
  match d.find? (fun kv => kv.1 == k) with
  | some kv => some kv.2
  | none => none

/-- Mongo `$set` on one field: replace the first binding of `k`, or append
the binding if the field is absent. -/
def setField : Doc → String → BVal → Doc
  | [], k, v => [(k, v)]
  | (k₀, v₀) :: rest, k, v =>
      if k₀ == k then (k, v) :: rest else (k₀, v₀) :: setField rest k v

/-- Mongo `$set` with a whole update document: set every field of `body`
on `d`, in order. -/
def applySet (body : Doc) (d : Doc) : Doc :=
  List.foldl (fun acc kv => setField acc kv.1 kv.2) d body

/-- True when field `k` of `d` is present and JavaScript-truthy. -/
def fieldTruthy (d : Doc) (k : String) : Bool :=
  match getField d k with
  | some v => v.truthy
  | none => false

/-- A comment embedded in the `comments` array of a movie document:
its identifier, its `text`, an optional `updatedAt` timestamp, and the
remaining fields, which this system never touches. -/
structure EmbComment where
  cid : String
  text : String
  updatedAt : Option Nat
  extra : Doc
deriving DecidableEq, Repr

/-- A movie document: its identifier, its embedded `comments` array, and
the remaining fields, never touched by this system. -/
structure Movie where
  mid : String
  comments : List EmbComment
  extra : Doc
deriving DecidableEq, Repr

/-- The document store: the three collections used by the handlers.
Theater and comment documents are flat documents; movie documents are
structured because the PUT variant B handler updates an embedded array. -/
structure DB where
  theaters : List Doc
  movies : List Movie
  comments : List Doc
deriving DecidableEq, Repr

/-- The `data` payload of a response body, one constructor per payload
shape occurring in the sources. -/
inductive RData where
  | theaters : List Doc → RData
  | movies : List Movie → RData
  | theater : Doc → RData
  | comments : List Doc → RData
  | comment : Doc → RData
  | updateInfo : Bool → String → String → RData
deriving DecidableEq, Repr

/-- The JSON response envelope `\x7b status, message?, error?, data? \x7d`. -/
structure RBody where
  status : Nat
  message : Option String
  error : Option String
  data : Option RData
deriving DecidableEq, Repr

/-- A full response: the JSON body plus the HTTP transport status
(`NextResponse.json` without an init object sends transport status 200). -/
structure Resp where
  body : RBody
  transport : Nat
deriving DecidableEq, Repr

/-- One store operation issued by a handler, with its arguments. -/
inductive StoreOp where
  | findTheaters : StoreOp
  | findMovies : StoreOp
  | findOneTheater : String → StoreOp
  | findOneMovie : String → StoreOp
  | findComments : String → StoreOp
  | findOneComment : String → String → StoreOp
  | updateOneComments : String → String → StoreOp
  | deleteOneComments : String → String → StoreOp
  | updateOneMovies : String → String → StoreOp
deriving DecidableEq, Repr

/-- Result of one handler run: the response, the store afterwards, and the
ordered trace of store operations issued. -/
structure HOut where
  resp : Resp
  db : DB
  ops : List StoreOp
deriving DecidableEq, Repr

/-- The catch-all branch present in every handler: any store exception is
surfaced as a body with status 500, the given message, the raw exception
message, and no data. -/
def internalError (message error : String) : RBody :=
  ⟨500, some message, some error, none⟩

/-- The comments-collection filter used by the single-comment handlers:
`_id` equals `idComment` and `movie_id` equals `idMovie`. -/
def commentMatches (idComment idMovie : String) (d : Doc) : Bool :=
  getField d "_id" == some (BVal.oid idComment)
    && getField d "movie_id" == some (BVal.oid idMovie)

/-- `deleteOne` on the comments collection: remove the first document
matching the filter; also return the deleted count (0 or 1). -/
def deleteOneComments (idComment idMovie : String) : List Doc → List Doc × Nat
  | [] => ([], 0)
  | d :: rest =>
      if commentMatches idComment idMovie d then (rest, 1)
      else
        let r := deleteOneComments idComment idMovie rest
        (d :: r.1, r.2)

/-- `updateOne` with `$set body` on the comments collection: update the
first document matching the filter; also return the matched count and the
modified count. -/
def updateOneComments (idComment idMovie : String) (body : Doc) :
    List Doc → List Doc × Nat × Nat
  | [] => ([], 0, 0)
  | d :: rest =>
      if commentMatches idComment idMovie d then
        let d₂ := applySet body d
        (d₂ :: rest, 1, if d₂ == d then 0 else 1)
      else
        let r := updateOneComments idComment idMovie body rest
        (d :: r.1, r.2.1, r.2.2)

/-- The movies-collection filter of PUT variant B: `_id` equals `idMovie`
and the embedded `comments` array has an element with `_id` equal to
`idComment`. -/
def movieEmbMatches (idMovie idComment : String) (m : Movie) : Bool :=
  m.mid == idMovie && m.comments.any (fun c => c.cid == idComment)

/-- The positional `$` update of PUT variant B: set `text` and `updatedAt`
on the first element of the array whose `_id` matches. -/
def setFirstEmb (idComment t : String) (now : Nat) :
    List EmbComment → List EmbComment
  | [] => []
  | c :: rest =>
      if c.cid == idComment then { c with text := t, updatedAt := some now } :: rest
      else c :: setFirstEmb idComment t now rest

/-- `updateOne` on the movies collection with the array-element filter and
the positional `$set`: update the first matching movie; also return the
matched count. -/
def updateOneMoviesEmb (idMovie idComment t : String) (now : Nat) :
    List Movie → List Movie × Nat
  | [] => ([], 0)
  | m :: rest =>
      if movieEmbMatches idMovie idComment m then
        ({ m with comments := setFirstEmb idComment t now m.comments } :: rest, 1)
      else
        let r := updateOneMoviesEmb idMovie idComment t now rest
        (m :: r.1, r.2)

/-- `GET /theaters` (app/api/theaters/route.ts): fetch up to 10 theater
documents, unfiltered, and return them as `data`. -/
def Theaters.GET (db : DB) : HOut :=
  ⟨⟨⟨200, none, none, some (.theaters (db.theaters.take 10))⟩, 200⟩, db,
    [.findTheaters]⟩

/-- `GET /movies` (app/api/movies/route.ts): fetch up to 10 movie
documents, unfiltered, and return them as `data`. -/
def Movies.GET (db : DB) : HOut :=
  ⟨⟨⟨200, none, none, some (.movies (db.movies.take 10))⟩, 200⟩, db,
    [.findMovies]⟩

/-- `POST /movies`: always 405, no store operation. -/
def Movies.POST : Resp × List StoreOp :=
  (⟨⟨405, some "Method Not Allowed", some "POST method is not supported", none⟩, 200⟩, [])

/-- `PUT /movies`: always 405, no store operation. -/
def Movies.PUT : Resp × List StoreOp :=
  (⟨⟨405, some "Method Not Allowed", some "PUT method is not supported", none⟩, 200⟩, [])

/-- `DELETE /movies`: always 405, no store operation. -/
def Movies.DELETE : Resp × List StoreOp :=
  (⟨⟨405, some "Method Not Allowed", some "DELETE method is not supported", none⟩, 200⟩, [])

/-- `GET /theaters/\x7bidTheater\x7d`, first source variant
(page/api/theaters/[idTheater]/route.ts): transport status is always 200,
the semantic status lives in the body. -/
def TheaterById.GET (idTheater : String) (db : DB) : HOut :=
  if !(ObjectId.isValid idTheater) then
    ⟨⟨⟨400, some "Invalid Theaters ID", some "ID format is incorrect", none⟩, 200⟩, db, []⟩
  else
    match db.theaters.find? (fun d => getField d "_id" == some (BVal.oid idTheater)) with
    | none =>
        ⟨⟨⟨404, some "Theater not found", some "No Theater found with the given ID", none⟩, 200⟩,
          db, [.findOneTheater idTheater]⟩
    | some t =>
        ⟨⟨⟨200, none, none, some (.theater t)⟩, 200⟩, db, [.findOneTheater idTheater]⟩

/-- `GET /theaters/\x7bidTheater\x7d`, second source variant
(app/api/theaters/[idTheater]/route.ts): transport status mirrors the body
status. -/
def TheaterById2.GET (idTheater : String) (db : DB) : HOut :=
  if !(ObjectId.isValid idTheater) then
    ⟨⟨⟨400, some "Invalid theater ID", some "ID format is incorrect", none⟩, 400⟩, db, []⟩
  else
    match db.theaters.find? (fun d => getField d "_id" == some (BVal.oid idTheater)) with
    | none =>
        ⟨⟨⟨404, some "Theater not found", some "No theater found with the given ID", none⟩, 404⟩,
          db, [.findOneTheater idTheater]⟩
    | some t =>
        ⟨⟨⟨200, none, none, some (.theater t)⟩, 200⟩, db, [.findOneTheater idTheater]⟩

/-- `GET /movies/\x7bidMovie\x7d/comments`: validate the id, then return
every comment whose `movie_id` equals `idMovie`; no movie existence
check. -/
def MovieComments.GET (idMovie : String) (db : DB) : HOut :=
  if !(ObjectId.isValid idMovie) then
    ⟨⟨⟨400, some "Invalid movie ID", some "ID format is incorrect", none⟩, 200⟩, db, []⟩
  else
    ⟨⟨⟨200, none, none,
        some (.comments (db.comments.filter
          (fun d => getField d "movie_id" == some (BVal.oid idMovie))))⟩, 200⟩,
      db, [.findComments idMovie]⟩

/-- `GET /movies/\x7bidMovie\x7d/comments/\x7bidComment\x7d`, first source
variant (page/api/...): validate both ids, check the movie exists, then
fetch the comment with the combined filter.  Transport always 200. -/
def CommentById.GET (idMovie idComment : String) (db : DB) : HOut :=
  if !(ObjectId.isValid idMovie) then
    ⟨⟨⟨400, some "Invalid movie ID", some "Movie ID format is incorrect", none⟩, 200⟩, db, []⟩
  else if !(ObjectId.isValid idComment) then
    ⟨⟨⟨400, some "Invalid comment ID", some "Comment ID format is incorrect", none⟩, 200⟩, db, []⟩
  else
    match db.movies.find? (fun m => m.mid == idMovie) with
    | none =>
        ⟨⟨⟨404, some "Movie not found", some "No movie found with the given ID", none⟩, 200⟩,
          db, [.findOneMovie idMovie]⟩
    | some _ =>
        match db.comments.find? (commentMatches idComment idMovie) with
        | none =>
            ⟨⟨⟨404, some "Comment not found",
                some "No comment found with the given ID for this movie", none⟩, 200⟩,
              db, [.findOneMovie idMovie, .findOneComment idComment idMovie]⟩
        | some c =>
            ⟨⟨⟨200, none, none, some (.comment c)⟩, 200⟩,
              db, [.findOneMovie idMovie, .findOneComment idComment idMovie]⟩

/-- `POST /movies/\x7bidMovie\x7d/comments/\x7bidComment\x7d`, first source
variant: presence check, id validation, body check (`text` or `user`
truthy), then `updateOne` with `$set body` on the comments collection; no
movie existence check.  `body = none` models a JSON `null` request body. -/
def CommentById.POST (idMovie idComment : String) (body : Option Doc) (db : DB) : HOut :=
  if idMovie == "" || idComment == "" then
    ⟨⟨⟨400, some "Movie ID and Comment ID are required", none, none⟩, 200⟩, db, []⟩
  else if !(ObjectId.isValid idMovie) || !(ObjectId.isValid idComment) then
    ⟨⟨⟨400, some "Invalid ID format", none, none⟩, 200⟩, db, []⟩
  else
    match body with
    | none =>
        ⟨⟨⟨400, some "Request body must contain at least text or user field", none, none⟩, 200⟩,
          db, []⟩
    | some bd =>
        if !(fieldTruthy bd "text") && !(fieldTruthy bd "user") then
          ⟨⟨⟨400, some "Request body must contain at least text or user field", none, none⟩, 200⟩,
            db, []⟩
        else
          let r := updateOneComments idComment idMovie bd db.comments
          if r.2.1 == 0 then
            ⟨⟨⟨404, some "Movie or comment not found", none, none⟩, 200⟩,
              { db with comments := r.1 }, [.updateOneComments idComment idMovie]⟩
          else
            ⟨⟨⟨200, some "Comment updated successfully", none,
                some (.updateInfo (r.2.2 != 0) idMovie idComment)⟩, 200⟩,
              { db with comments := r.1 }, [.updateOneComments idComment idMovie]⟩

/-- `DELETE /movies/\x7bidMovie\x7d/comments/\x7bidComment\x7d`, first
source variant: validate both ids, check the movie exists, then
`deleteOne` with the combined filter.  Transport always 200. -/
def CommentById.DELETE (idMovie idComment : String) (db : DB) : HOut :=
  if !(ObjectId.isValid idMovie) then
    ⟨⟨⟨400, some "Invalid movie ID", some "Movie ID format is incorrect", none⟩, 200⟩, db, []⟩
  else if !(ObjectId.isValid idComment) then
    ⟨⟨⟨400, some "Invalid comment ID", some "Comment ID format is incorrect", none⟩, 200⟩, db, []⟩
  else
    match db.movies.find? (fun m => m.mid == idMovie) with
    | none =>
        ⟨⟨⟨404, some "Movie not found", some "No movie found with the given ID", none⟩, 200⟩,
          db, [.findOneMovie idMovie]⟩
    | some _ =>
        let r := deleteOneComments idComment idMovie db.comments
        if r.2 == 0 then
          ⟨⟨⟨404, some "Comment not found",
              some "No comment found with the given ID for this movie", none⟩, 200⟩,
            { db with comments := r.1 },
            [.findOneMovie idMovie, .deleteOneComments idComment idMovie]⟩
        else
          ⟨⟨⟨200, some "Comment deleted successfully", none, none⟩, 200⟩,
            { db with comments := r.1 },
            [.findOneMovie idMovie, .deleteOneComments idComment idMovie]⟩

/-- `PUT /movies/\x7bidMovie\x7d/comments/\x7bidComment\x7d`, first source
variant (variant A): code identical to the first-variant POST. -/
def CommentById.PUT (idMovie idComment : String) (body : Option Doc) (db : DB) : HOut :=
  if idMovie == "" || idComment == "" then
    ⟨⟨⟨400, some "Movie ID and Comment ID are required", none, none⟩, 200⟩, db, []⟩
  else if !(ObjectId.isValid idMovie) || !(ObjectId.isValid idComment) then
    ⟨⟨⟨400, some "Invalid ID format", none, none⟩, 200⟩, db, []⟩
  else
    match body with
    | none =>
        ⟨⟨⟨400, some "Request body must contain at least text or user field", none, none⟩, 200⟩,
          db, []⟩
    | some bd =>
        if !(fieldTruthy bd "text") && !(fieldTruthy bd "user") then
          ⟨⟨⟨400, some "Request body must contain at least text or user field", none, none⟩, 200⟩,
            db, []⟩
        else
          let r := updateOneComments idComment idMovie bd db.comments
          if r.2.1 == 0 then
            ⟨⟨⟨404, some "Movie or comment not found", none, none⟩, 200⟩,
              { db with comments := r.1 }, [.updateOneComments idComment idMovie]⟩
          else
            ⟨⟨⟨200, some "Comment updated successfully", none,
                some (.updateInfo (r.2.2 != 0) idMovie idComment)⟩, 200⟩,
              { db with comments := r.1 }, [.updateOneComments idComment idMovie]⟩

/-- `GET .../comments/\x7bidComment\x7d`, second source variant
(app/api/...): same branching and messages as the first variant, with the
transport status mirroring the body status. -/
def CommentById2.GET (idMovie idComment : String) (db : DB) : HOut :=
  if !(ObjectId.isValid idMovie) then
    ⟨⟨⟨400, some "Invalid movie ID", some "Movie ID format is incorrect", none⟩, 400⟩, db, []⟩
  else if !(ObjectId.isValid idComment) then
    ⟨⟨⟨400, some "Invalid comment ID", some "Comment ID format is incorrect", none⟩, 400⟩, db, []⟩
  else
    match db.movies.find? (fun m => m.mid == idMovie) with
    | none =>
        ⟨⟨⟨404, some "Movie not found", some "No movie found with the given ID", none⟩, 404⟩,
          db, [.findOneMovie idMovie]⟩
    | some _ =>
        match db.comments.find? (commentMatches idComment idMovie) with
        | none =>
            ⟨⟨⟨404, some "Comment not found",
                some "No comment found with the given ID for this movie", none⟩, 404⟩,
              db, [.findOneMovie idMovie, .findOneComment idComment idMovie]⟩
        | some c =>
            ⟨⟨⟨200, none, none, some (.comment c)⟩, 200⟩,
              db, [.findOneMovie idMovie, .findOneComment idComment idMovie]⟩

/-- `POST .../comments/\x7bidComment\x7d`, second source variant: same
branching and messages as the first variant, with the transport status
mirroring the body status on errors. -/
def CommentById2.POST (idMovie idComment : String) (body : Option Doc) (db : DB) : HOut :=
  if idMovie == "" || idComment == "" then
    ⟨⟨⟨400, some "Movie ID and Comment ID are required", none, none⟩, 400⟩, db, []⟩
  else if !(ObjectId.isValid idMovie) || !(ObjectId.isValid idComment) then
    ⟨⟨⟨400, some "Invalid ID format", none, none⟩, 400⟩, db, []⟩
  else
    match body with
    | none =>
        ⟨⟨⟨400, some "Request body must contain at least text or user field", none, none⟩, 400⟩,
          db, []⟩
    | some bd =>
        if !(fieldTruthy bd "text") && !(fieldTruthy bd "user") then
          ⟨⟨⟨400, some "Request body must contain at least text or user field", none, none⟩, 400⟩,
            db, []⟩
        else
          let r := updateOneComments idComment idMovie bd db.comments
          if r.2.1 == 0 then
            ⟨⟨⟨404, some "Movie or comment not found", none, none⟩, 404⟩,
              { db with comments := r.1 }, [.updateOneComments idComment idMovie]⟩
          else
            ⟨⟨⟨200, some "Comment updated successfully", none,
                some (.updateInfo (r.2.2 != 0) idMovie idComment)⟩, 200⟩,
              { db with comments := r.1 }, [.updateOneComments idComment idMovie]⟩

/-- `DELETE .../comments/\x7bidComment\x7d`, second source variant: same
branching and messages as the first variant, with the transport status
mirroring the body status on errors. -/
def CommentById2.DELETE (idMovie idComment : String) (db : DB) : HOut :=
  if !(ObjectId.isValid idMovie) then
    ⟨⟨⟨400, some "Invalid movie ID", some "Movie ID format is incorrect", none⟩, 400⟩, db, []⟩
  else if !(ObjectId.isValid idComment) then
    ⟨⟨⟨400, some "Invalid comment ID", some "Comment ID format is incorrect", none⟩, 400⟩, db, []⟩
  else
    match db.movies.find? (fun m => m.mid == idMovie) with
    | none =>
        ⟨⟨⟨404, some "Movie not found", some "No movie found with the given ID", none⟩, 404⟩,
          db, [.findOneMovie idMovie]⟩
    | some _ =>
        let r := deleteOneComments idComment idMovie db.comments
        if r.2 == 0 then
          ⟨⟨⟨404, some "Comment not found",
              some "No comment found with the given ID for this movie", none⟩, 404⟩,
            { db with comments := r.1 },
            [.findOneMovie idMovie, .deleteOneComments idComment idMovie]⟩
        else
          ⟨⟨⟨200, some "Comment deleted successfully", none, none⟩, 200⟩,
            { db with comments := r.1 },
            [.findOneMovie idMovie, .deleteOneComments idComment idMovie]⟩

/-- `PUT .../comments/\x7bidComment\x7d`, second source variant
(variant B): validate both ids, require `body.text` to be a truthy string,
then `updateOne` on the movies collection with the array-element filter
and the positional `$set` of `text` and `updatedAt`; no movie existence
lookup of its own and no touch of the comments collection.  `now` is the
`new Date()` timestamp. -/
def CommentById2.PUT (idMovie idComment : String) (body : Doc) (now : Nat) (db : DB) : HOut :=
  if !(ObjectId.isValid idMovie) then
    ⟨⟨⟨400, some "Invalid movie ID", some "Movie ID format is incorrect", none⟩, 400⟩, db, []⟩
  else if !(ObjectId.isValid idComment) then
    ⟨⟨⟨400, some "Invalid comment ID", some "Comment ID format is incorrect", none⟩, 400⟩, db, []⟩
  else
    match getField body "text" with
    | some (BVal.s t) =>
        if t == "" then
          ⟨⟨⟨400, some "Invalid input",
              some "Comment text is required and must be a string", none⟩, 400⟩, db, []⟩
        else
          let r := updateOneMoviesEmb idMovie idComment t now db.movies
          if r.2 == 0 then
            ⟨⟨⟨404, some "Movie or comment not found",
                some "No matching movie or comment with the given IDs", none⟩, 404⟩,
              { db with movies := r.1 }, [.updateOneMovies idMovie idComment]⟩
          else
            ⟨⟨⟨200, some "Comment updated successfully", none, none⟩, 200⟩,
              { db with movies := r.1 }, [.updateOneMovies idMovie idComment]⟩
    | _ =>
        ⟨⟨⟨400, some "Invalid input",
            some "Comment text is required and must be a string", none⟩, 400⟩, db, []⟩

/-- A concrete valid 24-hex identifier used by concrete instantiations. -/
def idA : String := "aaaaaaaaaaaaaaaaaaaaaaaa"

/-- A second concrete valid identifier, distinct from `idA`. -/
def idB : String := "bbbbbbbbbbbbbbbbbbbbbbbb"

/-- A third concrete valid identifier, distinct from the other two. -/
def idC0 : String := "cccccccccccccccccccccccc"

/-- The empty store. -/
def db0 : DB := ⟨[], [], []⟩

/-- A syntactically valid identifier is nonempty. -/
lemma isValid_ne_empty (s : String) (h : ObjectId.isValid s = true) : (s == "") = false := by
  cases hb : s == ""
  · rfl
  · have hs : s = "" := by simpa using hb
    subst hs
    exact absurd h (by decide)

/-- Claim C6: for a valid `idMovie`, `GET /movies/.../comments` returns 200
with `data.comments` equal to the comments whose `movie_id` equals the
given id (possibly empty, never 404), issues exactly the one `find` on the
comments collection, and never checks that the movie exists nor changes
the store. -/
theorem c6_comments_listing_no_existence_check (idMovie : String) (db : DB)
    (h : ObjectId.isValid idMovie = true) :
    (MovieComments.GET idMovie db).resp.body.status = 200 ∧
    (MovieComments.GET idMovie db).resp.body.data =
      some (.comments (db.comments.filter
        (fun d => getField d "movie_id" == some (BVal.oid idMovie)))) ∧
    (MovieComments.GET idMovie db).ops = [.findComments idMovie] ∧
    (MovieComments.GET idMovie db).db = db := by
  simp [MovieComments.GET, h]

theorem c6_comments_listing_witness :
    ObjectId.isValid idA = true ∧
    (MovieComments.GET idA db0).resp.body.status = 200 ∧
    (MovieComments.GET idA db0).resp.body.data = some (.comments []) :=
  ⟨by decide, (c6_comments_listing_no_existence_check idA db0 (by decide)).1, by decide⟩

/-- Claim C7: `GET /theaters` and `GET /movies` return 200 with the first
(at most) 10 documents of the collection, unfiltered and in store order;
when the store holds more than 10 documents the returned length
`min 10 length` is exactly 10. -/
theorem c7_list_handlers_return_at_most_ten (db : DB) :
    (Theaters.GET db).resp.body.status = 200 ∧
    (Theaters.GET db).resp.body.data = some (.theaters (db.theaters.take 10)) ∧
    (db.theaters.take 10).length = min 10 db.theaters.length ∧
    (Theaters.GET db).ops = [.findTheaters] ∧
    (Movies.GET db).resp.body.status = 200 ∧
    (Movies.GET db).resp.body.data = some (.movies (db.movies.take 10)) ∧
    (db.movies.take 10).length = min 10 db.movies.length ∧
    (Movies.GET db).ops = [.findMovies] := by
  refine ⟨rfl, rfl, ?_, rfl, rfl, rfl, ?_, rfl⟩ <;> simp [List.length_take]

/-- Claim C8: the POST, PUT and DELETE handlers of `/movies` always return
body status 405 and issue no store operation. -/
theorem c8_movies_mutations_always_405 :
    Movies.POST.1.body.status = 405 ∧ Movies.POST.2 = [] ∧
    Movies.PUT.1.body.status = 405 ∧ Movies.PUT.2 = [] ∧
    Movies.DELETE.1.body.status = 405 ∧ Movies.DELETE.2 = [] := by
  decide

/-- With either identifier invalid, the first-variant single-comment GET
returns body status 400 with an empty operation trace. -/
lemma commentByIdGET_invalid (a b : String) (db : DB)
    (h : ObjectId.isValid a = false ∨ ObjectId.isValid b = false) :
    (CommentById.GET a b db).resp.body.status = 400 ∧ (CommentById.GET a b db).ops = [] := by
  unfold CommentById.GET
  rcases h with h | h
  · simp [h]
  · cases ha : ObjectId.isValid a <;> simp [ha, h]

/-- With either identifier invalid, the second-variant single-comment GET
returns body status 400 with an empty operation trace. -/
lemma commentById2GET_invalid (a b : String) (db : DB)
    (h : ObjectId.isValid a = false ∨ ObjectId.isValid b = false) :
    (CommentById2.GET a b db).resp.body.status = 400 ∧ (CommentById2.GET a b db).ops = [] := by
  unfold CommentById2.GET
  rcases h with h | h
  · simp [h]
  · cases ha : ObjectId.isValid a <;> simp [ha, h]

/-- With either identifier invalid, the first-variant single-comment
DELETE returns body status 400 with an empty operation trace. -/
lemma commentByIdDELETE_invalid (a b : String) (db : DB)
    (h : ObjectId.isValid a = false ∨ ObjectId.isValid b = false) :
    (CommentById.DELETE a b db).resp.body.status = 400 ∧
    (CommentById.DELETE a b db).ops = [] := by
  unfold CommentById.DELETE
  rcases h with h | h
  · simp [h]
  · cases ha : ObjectId.isValid a <;> simp [ha, h]

/-- With either identifier invalid, the second-variant single-comment
DELETE returns body status 400 with an empty operation trace. -/
lemma commentById2DELETE_invalid (a b : String) (db : DB)
    (h : ObjectId.isValid a = false ∨ ObjectId.isValid b = false) :
    (CommentById2.DELETE a b db).resp.body.status = 400 ∧
    (CommentById2.DELETE a b db).ops = [] := by
  unfold CommentById2.DELETE
  rcases h with h | h
  · simp [h]
  · cases ha : ObjectId.isValid a <;> simp [ha, h]

/-- With either identifier invalid, the first-variant single-comment POST
returns body status 400 with an empty operation trace. -/
lemma commentByIdPOST_invalid (a b : String) (body : Option Doc) (db : DB)
    (h : ObjectId.isValid a = false ∨ ObjectId.isValid b = false) :
    (CommentById.POST a b body db).resp.body.status = 400 ∧
    (CommentById.POST a b body db).ops = [] := by
  unfold CommentById.POST
  by_cases h0 : (a == "" || b == "") = true
  · simp [h0]
  · rcases h with h | h <;> simp [h0, h]

/-- With either identifier invalid, the second-variant single-comment POST
returns body status 400 with an empty operation trace. -/
lemma commentById2POST_invalid (a b : String) (body : Option Doc) (db : DB)
    (h : ObjectId.isValid a = false ∨ ObjectId.isValid b = false) :
    (CommentById2.POST a b body db).resp.body.status = 400 ∧
    (CommentById2.POST a b body db).ops = [] := by
  unfold CommentById2.POST
  by_cases h0 : (a == "" || b == "") = true
  · simp [h0]
  · rcases h with h | h <;> simp [h0, h]

/-- With either identifier invalid, the first-variant single-comment PUT
(variant A) returns body status 400 with an empty operation trace. -/
lemma commentByIdPUT_invalid (a b : String) (body : Option Doc) (db : DB)
    (h : ObjectId.isValid a = false ∨ ObjectId.isValid b = false) :
    (CommentById.PUT a b body db).resp.body.status = 400 ∧
    (CommentById.PUT a b body db).ops = [] := by
  unfold CommentById.PUT
  by_cases h0 : (a == "" || b == "") = true
  · simp [h0]
  · rcases h with h | h <;> simp [h0, h]

/-- With either identifier invalid, the second-variant single-comment PUT
(variant B) returns body status 400 with an empty operation trace. -/
lemma commentById2PUT_invalid (a b : String) (body : Doc) (now : Nat) (db : DB)
    (h : ObjectId.isValid a = false ∨ ObjectId.isValid b = false) :
    (CommentById2.PUT a b body now db).resp.body.status = 400 ∧
    (CommentById2.PUT a b body now db).ops = [] := by
  unfold CommentById2.PUT
  rcases h with h | h
  · simp [h]
  · cases ha : ObjectId.isValid a <;> simp [ha, h]

/-- Claim C1: for any string `s` that is not a valid canonical 24-hex
identifier, every identifier-taking endpoint — both theater-by-id
variants, the movie-comments listing, and every verb of both
single-comment route variants, with the invalid string in either
identifier position — returns body status 400 and issues no store
operation at all. -/
theorem c1_invalid_identifier_rejected_without_store_ops
    (s t : String) (db : DB) (body : Option Doc) (bodyB : Doc) (now : Nat)
    (h : ObjectId.isValid s = false) :
    ((TheaterById.GET s db).resp.body.status = 400 ∧ (TheaterById.GET s db).ops = []) ∧
    ((TheaterById2.GET s db).resp.body.status = 400 ∧ (TheaterById2.GET s db).ops = []) ∧
    ((MovieComments.GET s db).resp.body.status = 400 ∧ (MovieComments.GET s db).ops = []) ∧
    ((CommentById.GET s t db).resp.body.status = 400 ∧ (CommentById.GET s t db).ops = []) ∧
    ((CommentById.GET t s db).resp.body.status = 400 ∧ (CommentById.GET t s db).ops = []) ∧
    ((CommentById2.GET s t db).resp.body.status = 400 ∧ (CommentById2.GET s t db).ops = []) ∧
    ((CommentById2.GET t s db).resp.body.status = 400 ∧ (CommentById2.GET t s db).ops = []) ∧
    ((CommentById.POST s t body db).resp.body.status = 400 ∧
      (CommentById.POST s t body db).ops = []) ∧
    ((CommentById.POST t s body db).resp.body.status = 400 ∧
      (CommentById.POST t s body db).ops = []) ∧
    ((CommentById2.POST s t body db).resp.body.status = 400 ∧
      (CommentById2.POST s t body db).ops = []) ∧
    ((CommentById2.POST t s body db).resp.body.status = 400 ∧
      (CommentById2.POST t s body db).ops = []) ∧
    ((CommentById.PUT s t body db).resp.body.status = 400 ∧
      (CommentById.PUT s t body db).ops = []) ∧
    ((CommentById.PUT t s body db).resp.body.status = 400 ∧
      (CommentById.PUT t s body db).ops = []) ∧
    ((CommentById2.PUT s t bodyB now db).resp.body.status = 400 ∧
      (CommentById2.PUT s t bodyB now db).ops = []) ∧
    ((CommentById2.PUT t s bodyB now db).resp.body.status = 400 ∧
      (CommentById2.PUT t s bodyB now db).ops = []) ∧
    ((CommentById.DELETE s t db).resp.body.status = 400 ∧
      (CommentById.DELETE s t db).ops = []) ∧
    ((CommentById.DELETE t s db).resp.body.status = 400 ∧
      (CommentById.DELETE t s db).ops = []) ∧
    ((CommentById2.DELETE s t db).resp.body.status = 400 ∧
      (CommentById2.DELETE s t db).ops = []) ∧
    ((CommentById2.DELETE t s db).resp.body.status = 400 ∧
      (CommentById2.DELETE t s db).ops = []) := by
  refine ⟨⟨?_, ?_⟩, ⟨?_, ?_⟩, ⟨?_, ?_⟩, ?_, ?_, ?_, ?_, ?_, ?_, ?_, ?_, ?_, ?_, ?_, ?_,
    ?_, ?_, ?_, ?_⟩
  · unfold TheaterById.GET; simp [h]
  · unfold TheaterById.GET; simp [h]
  · unfold TheaterById2.GET; simp [h]
  · unfold TheaterById2.GET; simp [h]
  · unfold MovieComments.GET; simp [h]
  · unfold MovieComments.GET; simp [h]
  · exact commentByIdGET_invalid s t db (Or.inl h)
  · exact commentByIdGET_invalid t s db (Or.inr h)
  · exact commentById2GET_invalid s t db (Or.inl h)
  · exact commentById2GET_invalid t s db (Or.inr h)
  · exact commentByIdPOST_invalid s t body db (Or.inl h)
  · exact commentByIdPOST_invalid t s body db (Or.inr h)
  · exact commentById2POST_invalid s t body db (Or.inl h)
  · exact commentById2POST_invalid t s body db (Or.inr h)
  · exact commentByIdPUT_invalid s t body db (Or.inl h)
  · exact commentByIdPUT_invalid t s body db (Or.inr h)
  · exact commentById2PUT_invalid s t bodyB now db (Or.inl h)
  · exact commentById2PUT_invalid t s bodyB now db (Or.inr h)
  · exact commentByIdDELETE_invalid s t db (Or.inl h)
  · exact commentByIdDELETE_invalid t s db (Or.inr h)
  · exact commentById2DELETE_invalid s t db (Or.inl h)
  · exact commentById2DELETE_invalid t s db (Or.inr h)

theorem c1_invalid_identifier_witness :
    ObjectId.isValid "not-a-hex-identifier" = false ∧
    (TheaterById.GET "not-a-hex-identifier" db0).resp.body.status = 400 ∧
    (TheaterById.GET "not-a-hex-identifier" db0).ops = [] ∧
    (CommentById.DELETE idA "not-a-hex-identifier" db0).resp.body.status = 400 ∧
    (CommentById.DELETE idA "not-a-hex-identifier" db0).ops = [] :=
  ⟨by decide,
    (c1_invalid_identifier_rejected_without_store_ops
      "not-a-hex-identifier" idA db0 none [] 0 (by decide)).1.1,
    (c1_invalid_identifier_rejected_without_store_ops
      "not-a-hex-identifier" idA db0 none [] 0 (by decide)).1.2,
    (c1_invalid_identifier_rejected_without_store_ops
      "not-a-hex-identifier" idA db0 none [] 0 (by decide)).2.2.2.2.2.2.2.2.2.2.2.2.2.2.2.2.2.1.1,
    (c1_invalid_identifier_rejected_without_store_ops
      "not-a-hex-identifier" idA db0 none [] 0 (by decide)).2.2.2.2.2.2.2.2.2.2.2.2.2.2.2.2.2.1.2⟩

/-- When no document of the list matches the combined filter, `deleteOne`
removes nothing and reports a deleted count of 0. -/
lemma deleteOneComments_of_nomatch (idC idM : String) (l : List Doc)
    (h : ∀ d ∈ l, commentMatches idC idM d = false) :
    deleteOneComments idC idM l = (l, 0) := by
  induction l with
  | nil => rfl
  | cons d rest ih =>
      have hd := h d (List.mem_cons_self d rest)
      have hr := ih (fun x hx => h x (List.mem_cons_of_mem d hx))
      simp [deleteOneComments, hd, hr]

/-- When no document of the list matches the combined filter, `updateOne`
changes nothing and reports matched and modified counts of 0. -/
lemma updateOneComments_of_nomatch (idC idM : String) (bd : Doc) (l : List Doc)
    (h : ∀ d ∈ l, commentMatches idC idM d = false) :
    updateOneComments idC idM bd l = (l, 0, 0) := by
  induction l with
  | nil => rfl
  | cons d rest ih =>
      have hd := h d (List.mem_cons_self d rest)
      have hr := ih (fun x hx => h x (List.mem_cons_of_mem d hx))
      simp [updateOneComments, hd, hr]

/-- Claim C2: DELETE on a single comment with two valid identifiers, a
parent movie that exists, and no comment document matching both
`_id = idComment` and `movie_id = idMovie` (in particular when the comment
identifier exists only under a different movie) returns 404 ("Comment not
found") and leaves the store — hence the comments collection — completely
unchanged, in both source variants. -/
theorem c2_delete_cross_movie_returns_404_and_removes_nothing
    (idM idC : String) (db : DB)
    (h1 : ObjectId.isValid idM = true) (h2 : ObjectId.isValid idC = true)
    (hmov : (db.movies.find? (fun m => m.mid == idM)).isSome = true)
    (hnc : ∀ d ∈ db.comments, commentMatches idC idM d = false) :
    ((CommentById.DELETE idM idC db).resp.body.status = 404 ∧
     (CommentById.DELETE idM idC db).resp.body.message = some "Comment not found" ∧
     (CommentById.DELETE idM idC db).db = db) ∧
    ((CommentById2.DELETE idM idC db).resp.body.status = 404 ∧
     (CommentById2.DELETE idM idC db).resp.body.message = some "Comment not found" ∧
     (CommentById2.DELETE idM idC db).db = db) := by
  obtain ⟨m, hm⟩ := Option.isSome_iff_exists.mp hmov
  have hdel := deleteOneComments_of_nomatch idC idM db.comments hnc
  constructor
  · unfold CommentById.DELETE
    simp [h1, h2, hm, hdel]
  · unfold CommentById2.DELETE
    simp [h1, h2, hm, hdel]

theorem c2_delete_cross_movie_witness :
    ObjectId.isValid idA = true ∧ ObjectId.isValid idB = true ∧
    ((DB.mk [] [⟨idA, [], []⟩]
        [[("_id", BVal.oid idB), ("movie_id", BVal.oid idC0)]]).movies.find?
      (fun m => m.mid == idA)).isSome = true ∧
    (∀ d ∈ (DB.mk [] [⟨idA, [], []⟩]
        [[("_id", BVal.oid idB), ("movie_id", BVal.oid idC0)]]).comments,
      commentMatches idB idA d = false) ∧
    (CommentById.DELETE idA idB
      (DB.mk [] [⟨idA, [], []⟩]
        [[("_id", BVal.oid idB), ("movie_id", BVal.oid idC0)]])).resp.body.status = 404 ∧
    (CommentById.DELETE idA idB
      (DB.mk [] [⟨idA, [], []⟩]
        [[("_id", BVal.oid idB), ("movie_id", BVal.oid idC0)]])).db =
      DB.mk [] [⟨idA, [], []⟩] [[("_id", BVal.oid idB), ("movie_id", BVal.oid idC0)]] :=
  ⟨by decide, by decide, by decide, by decide,
    (c2_delete_cross_movie_returns_404_and_removes_nothing idA idB
      (DB.mk [] [⟨idA, [], []⟩] [[("_id", BVal.oid idB), ("movie_id", BVal.oid idC0)]])
      (by decide) (by decide) (by decide) (by decide)).1.1,
    (c2_delete_cross_movie_returns_404_and_removes_nothing idA idB
      (DB.mk [] [⟨idA, [], []⟩] [[("_id", BVal.oid idB), ("movie_id", BVal.oid idC0)]])
      (by decide) (by decide) (by decide) (by decide)).1.2.2⟩

/-- Claim C3 is refuted at a concrete input: with valid identifiers, a
truthy body, and an empty movies collection (so the parent movie does not
exist), the first-variant POST does not return 404 "Movie not found"
before touching the comment: it issues an `updateOne` on the comments
collection and answers with the message "Movie or comment not found". -/
theorem c3_counterexample_post_skips_movie_check :
    (CommentById.POST idA idB (some [("text", BVal.s "hi")]) db0).ops =
      [StoreOp.updateOneComments idB idA] ∧
    (CommentById.POST idA idB (some [("text", BVal.s "hi")]) db0).resp.body.status = 404 ∧
    (CommentById.POST idA idB (some [("text", BVal.s "hi")]) db0).resp.body.message =
      some "Movie or comment not found" ∧
    (CommentById.POST idA idB (some [("text", BVal.s "hi")]) db0).resp.body.message ≠
      some "Movie not found" := by
  decide

/-- Claim C3 as amended: with both identifiers valid and the parent movie
absent from the movies collection, only the GET and DELETE handlers (both
variants) short-circuit with 404 "Movie not found" after the single movie
lookup; POST and PUT variant A skip the movie existence check entirely —
they issue the `updateOne` with the combined filter on the comments
collection and, when no comment matches it, return 404 with the message
"Movie or comment not found" instead. -/
theorem c3_amended_movie_absent_behavior
    (idM idC : String) (bd : Doc) (db : DB)
    (h1 : ObjectId.isValid idM = true) (h2 : ObjectId.isValid idC = true)
    (hmov : db.movies.find? (fun m => m.mid == idM) = none)
    (hbd : (fieldTruthy bd "text" || fieldTruthy bd "user") = true)
    (hnc : ∀ d ∈ db.comments, commentMatches idC idM d = false) :
    ((CommentById.GET idM idC db).resp.body.status = 404 ∧
     (CommentById.GET idM idC db).resp.body.message = some "Movie not found" ∧
     (CommentById.GET idM idC db).ops = [.findOneMovie idM]) ∧
    ((CommentById2.GET idM idC db).resp.body.status = 404 ∧
     (CommentById2.GET idM idC db).resp.body.message = some "Movie not found" ∧
     (CommentById2.GET idM idC db).ops = [.findOneMovie idM]) ∧
    ((CommentById.DELETE idM idC db).resp.body.status = 404 ∧
     (CommentById.DELETE idM idC db).resp.body.message = some "Movie not found" ∧
     (CommentById.DELETE idM idC db).ops = [.findOneMovie idM]) ∧
    ((CommentById2.DELETE idM idC db).resp.body.status = 404 ∧
     (CommentById2.DELETE idM idC db).resp.body.message = some "Movie not found" ∧
     (CommentById2.DELETE idM idC db).ops = [.findOneMovie idM]) ∧
    ((CommentById.POST idM idC (some bd) db).resp.body.status = 404 ∧
     (CommentById.POST idM idC (some bd) db).resp.body.message =
       some "Movie or comment not found" ∧
     (CommentById.POST idM idC (some bd) db).ops = [.updateOneComments idC idM] ∧
     (CommentById.POST idM idC (some bd) db).db = db) ∧
    ((CommentById2.POST idM idC (some bd) db).resp.body.status = 404 ∧
     (CommentById2.POST idM idC (some bd) db).resp.body.message =
       some "Movie or comment not found" ∧
     (CommentById2.POST idM idC (some bd) db).ops = [.updateOneComments idC idM] ∧
     (CommentById2.POST idM idC (some bd) db).db = db) ∧
    ((CommentById.PUT idM idC (some bd) db).resp.body.status = 404 ∧
     (CommentById.PUT idM idC (some bd) db).resp.body.message =
       some "Movie or comment not found" ∧
     (CommentById.PUT idM idC (some bd) db).ops = [.updateOneComments idC idM] ∧
     (CommentById.PUT idM idC (some bd) db).db = db) := by
  have hM0 := isValid_ne_empty idM h1
  have hC0 := isValid_ne_empty idC h2
  have hcond : (!(fieldTruthy bd "text") && !(fieldTruthy bd "user")) = false := by
    cases ht : fieldTruthy bd "text" <;> cases hu : fieldTruthy bd "user" <;> simp_all
  have hupd := updateOneComments_of_nomatch idC idM bd db.comments hnc
  refine ⟨?_, ?_, ?_, ?_, ?_, ?_, ?_⟩
  · unfold CommentById.GET; simp [h1, h2, hmov]
  · unfold CommentById2.GET; simp [h1, h2, hmov]
  · unfold CommentById.DELETE; simp [h1, h2, hmov]
  · unfold CommentById2.DELETE; simp [h1, h2, hmov]
  · unfold CommentById.POST; simp [h1, h2, hM0, hC0, hcond, hupd]
  · unfold CommentById2.POST; simp [h1, h2, hM0, hC0, hcond, hupd]
  · unfold CommentById.PUT; simp [h1, h2, hM0, hC0, hcond, hupd]

theorem c3_amended_witness :
    ObjectId.isValid idA = true ∧ ObjectId.isValid idB = true ∧
    db0.movies.find? (fun m => m.mid == idA) = none ∧
    (fieldTruthy [("text", BVal.s "hi")] "text"
      || fieldTruthy [("text", BVal.s "hi")] "user") = true ∧
    (∀ d ∈ db0.comments, commentMatches idB idA d = false) ∧
    (CommentById.GET idA idB db0).resp.body.message = some "Movie not found" ∧
    (CommentById.POST idA idB (some [("text", BVal.s "hi")]) db0).resp.body.message =
      some "Movie or comment not found" :=
  ⟨by decide, by decide, by decide, by decide, by decide,
    (c3_amended_movie_absent_behavior idA idB [("text", BVal.s "hi")] db0
      (by decide) (by decide) (by decide) (by decide) (by decide)).1.2.1,
    (c3_amended_movie_absent_behavior idA idB [("text", BVal.s "hi")] db0
      (by decide) (by decide) (by decide) (by decide) (by decide)).2.2.2.2.1.2.1⟩

/-- The positional update rewrites exactly the first array element whose
identifier matches, leaving every element before and after it unchanged. -/
lemma setFirstEmb_append (idC t : String) (now : Nat)
    (cpre cpost : List EmbComment) (c : EmbComment)
    (hpre : ∀ x ∈ cpre, (x.cid == idC) = false) (hc : (c.cid == idC) = true) :
    setFirstEmb idC t now (cpre ++ c :: cpost) =
      cpre ++ { c with text := t, updatedAt := some now } :: cpost := by
  induction cpre with
  | nil => simp [setFirstEmb, hc]
  | cons x rest ih =>
      have hx := hpre x (List.mem_cons_self x rest)
      have hr := ih (fun y hy => hpre y (List.mem_cons_of_mem x hy))
      simp [setFirstEmb, hx, hr]

/-- The movies-collection `updateOne` rewrites exactly the first movie
matching the array-element filter, reporting a matched count of 1 and
leaving every other movie unchanged. -/
lemma updateOneMoviesEmb_append (idM idC t : String) (now : Nat)
    (mpre mpost : List Movie) (m : Movie)
    (hpre : ∀ x ∈ mpre, movieEmbMatches idM idC x = false)
    (hm : movieEmbMatches idM idC m = true) :
    updateOneMoviesEmb idM idC t now (mpre ++ m :: mpost) =
      (mpre ++ { m with comments := setFirstEmb idC t now m.comments } :: mpost, 1) := by
  induction mpre with
  | nil => simp [updateOneMoviesEmb, hm]
  | cons x rest ih =>
      have hx := hpre x (List.mem_cons_self x rest)
      have hr := ih (fun y hy => hpre y (List.mem_cons_of_mem x hy))
      simp [updateOneMoviesEmb, hx, hr]

/-- A concrete movie with three embedded comments, the middle one carrying
identifier `idB`, used to instantiate the PUT variant B frame theorem. -/
def mW : Movie :=
  ⟨idA,
    [⟨idC0, "first", none, []⟩,
     ⟨idB, "old", none, [("name", BVal.s "u")]⟩,
     ⟨idC0, "third", none, []⟩],
    [("title", BVal.s "T")]⟩

/-- A concrete store holding only `mW`. -/
def dbW : DB := ⟨[], [mW], []⟩

/-- Claim C4 is refuted at a concrete input inside its stated range: the
empty string is a string, yet PUT variant B with body text equal to the
empty string — against a store whose movie does embed an element with the
given comment identifier — returns 400 "Invalid input" (the source treats
a falsy `body.text` as missing), issues no store operation and modifies
nothing, instead of the claimed 200 with the element updated. -/
theorem c4_counterexample_empty_text_string :
    (CommentById2.PUT idA idB [("text", BVal.s "")] 7 dbW).resp.body.status = 400 ∧
    (CommentById2.PUT idA idB [("text", BVal.s "")] 7 dbW).resp.body.message =
      some "Invalid input" ∧
    (CommentById2.PUT idA idB [("text", BVal.s "")] 7 dbW).db = dbW ∧
    (CommentById2.PUT idA idB [("text", BVal.s "")] 7 dbW).ops = [] := by
  decide

/-- Claim C4 as amended: PUT variant B with valid identifiers and a body
whose `text` field is a nonempty string (the source rejects the empty
string, which is falsy, with 400 "Invalid input"), against a store whose
movies collection
contains (first match) a movie with the given identifier whose embedded
comments array contains (first match) an element with the given comment
identifier, replaces exactly that element by the same element with only
`text` and `updatedAt` changed — siblings before and after it, the other
fields of the movie, every other movie, and the other two collections are
untouched — and responds 200 with the message "Comment updated
successfully" and no data field. -/
theorem c4_put_variant_b_frame
    (idM idC t : String) (now : Nat) (body : Doc) (db : DB)
    (mpre mpost : List Movie) (m : Movie)
    (cpre cpost : List EmbComment) (c : EmbComment)
    (h1 : ObjectId.isValid idM = true) (h2 : ObjectId.isValid idC = true)
    (hbody : getField body "text" = some (BVal.s t)) (ht : (t == "") = false)
    (hdb : db.movies = mpre ++ m :: mpost)
    (hmpre : ∀ x ∈ mpre, movieEmbMatches idM idC x = false)
    (hmid : (m.mid == idM) = true)
    (hcomments : m.comments = cpre ++ c :: cpost)
    (hcpre : ∀ x ∈ cpre, (x.cid == idC) = false)
    (hcid : (c.cid == idC) = true) :
    (CommentById2.PUT idM idC body now db).resp.body =
      ⟨200, some "Comment updated successfully", none, none⟩ ∧
    (CommentById2.PUT idM idC body now db).resp.transport = 200 ∧
    (CommentById2.PUT idM idC body now db).db.theaters = db.theaters ∧
    (CommentById2.PUT idM idC body now db).db.comments = db.comments ∧
    (CommentById2.PUT idM idC body now db).db.movies =
      mpre ++ { m with comments :=
        cpre ++ { c with text := t, updatedAt := some now } :: cpost } :: mpost ∧
    (CommentById2.PUT idM idC body now db).ops = [.updateOneMovies idM idC] := by
  have hcid₂ : c.cid = idC := by simpa using hcid
  have hm : movieEmbMatches idM idC m = true := by
    unfold movieEmbMatches
    simp [hmid, hcomments, List.any_append, hcid₂]
  have hset := setFirstEmb_append idC t now cpre cpost c hcpre hcid
  have hupd := updateOneMoviesEmb_append idM idC t now mpre mpost m hmpre hm
  unfold CommentById2.PUT
  rw [hdb] at *
  simp [h1, h2, hbody, ht, hupd, hcomments, hset]

theorem c4_put_variant_b_witness :
    ObjectId.isValid idA = true ∧ ObjectId.isValid idB = true ∧
    getField [("text", BVal.s "updated")] "text" = some (BVal.s "updated") ∧
    dbW.movies = [] ++ mW :: [] ∧ (mW.mid == idA) = true ∧
    mW.comments = [⟨idC0, "first", none, []⟩] ++
      (⟨idB, "old", none, [("name", BVal.s "u")]⟩ : EmbComment) ::
        [⟨idC0, "third", none, []⟩] ∧
    (CommentById2.PUT idA idB [("text", BVal.s "updated")] 7 dbW).resp.body =
      ⟨200, some "Comment updated successfully", none, none⟩ ∧
    (CommentById2.PUT idA idB [("text", BVal.s "updated")] 7 dbW).db.movies =
      [] ++ { mW with comments := [⟨idC0, "first", none, []⟩] ++
        { (⟨idB, "old", none, [("name", BVal.s "u")]⟩ : EmbComment) with
            text := "updated", updatedAt := some 7 } ::
          [⟨idC0, "third", none, []⟩] } :: [] :=
  ⟨by decide, by decide, by decide, by decide, by decide, by decide,
    (c4_put_variant_b_frame idA idB "updated" 7 [("text", BVal.s "updated")] dbW
      [] [] mW [⟨idC0, "first", none, []⟩] [⟨idC0, "third", none, []⟩]
      ⟨idB, "old", none, [("name", BVal.s "u")]⟩
      (by decide) (by decide) (by decide) (by decide) (by decide)
      (by decide) (by decide) (by decide) (by decide) (by decide)).1,
    (c4_put_variant_b_frame idA idB "updated" 7 [("text", BVal.s "updated")] dbW
      [] [] mW [⟨idC0, "first", none, []⟩] [⟨idC0, "third", none, []⟩]
      ⟨idB, "old", none, [("name", BVal.s "u")]⟩
      (by decide) (by decide) (by decide) (by decide) (by decide)
      (by decide) (by decide) (by decide) (by decide) (by decide)).2.2.2.2.1⟩

/-- Unfolding of field lookup on a nonempty document. -/
lemma getField_cons (k₀ : String) (v₀ : BVal) (d : Doc) (j : String) :
    getField ((k₀, v₀) :: d) j = if k₀ == j then some v₀ else getField d j := by
  simp only [getField]
  cases h : (k₀ == j)
  · rw [List.find?_cons_of_neg _ (by simp [h])]
    simp [h]
  · rw [List.find?_cons_of_pos _ (by simp [h])]
    simp [h]

/-- Field lookup after a one-field set: the set field reads back. -/
lemma getField_setField_self (d : Doc) (k : String) (v : BVal) :
    getField (setField d k v) k = some v := by
  induction d with
  | nil => simp [setField, getField_cons]
  | cons kv rest ih =>
      obtain ⟨k₀, v₀⟩ := kv
      by_cases h : (k₀ == k) = true
      · simp [setField, h, getField_cons]
      · simp [setField, h, getField_cons, ih]

/-- Field lookup after a one-field set of a different key is unchanged. -/
lemma getField_setField_ne (d : Doc) (k j : String) (v : BVal) (h : k ≠ j) :
    getField (setField d k v) j = getField d j := by
  induction d with
  | nil => simp [setField, getField_cons, getField, h]
  | cons kv rest ih =>
      obtain ⟨k₀, v₀⟩ := kv
      by_cases h₀ : (k₀ == k) = true
      · have hk : k₀ = k := by simpa using h₀
        subst hk
        simp [setField, getField_cons, h]
      · simp [setField, h₀, getField_cons, ih]

/-- `$set` does not touch fields whose key is absent from the update
document. -/
lemma getField_applySet_not_mem (body : Doc) (j : String) :
    ∀ d : Doc, (∀ kv ∈ body, kv.1 ≠ j) →
      getField (applySet body d) j = getField d j := by
  induction body with
  | nil => intro d _; rfl
  | cons kv rest ih =>
      intro d h
      have h₁ : kv.1 ≠ j := h kv (List.mem_cons_self kv rest)
      have hr := ih (setField d kv.1 kv.2) (fun x hx => h x (List.mem_cons_of_mem kv hx))
      calc getField (applySet (kv :: rest) d) j
          = getField (applySet rest (setField d kv.1 kv.2)) j := rfl
        _ = getField (setField d kv.1 kv.2) j := hr
        _ = getField d j := getField_setField_ne d kv.1 j kv.2 h₁

/-- Every binding of the update document is written by `$set`: afterwards
the field reads back with the value from the update document. -/
lemma getField_applySet_mem (body : Doc) (k : String) (v : BVal) :
    ∀ d : Doc, (k, v) ∈ body → (body.map Prod.fst).Nodup →
      getField (applySet body d) k = some v := by
  induction body with
  | nil => intro d hmem _; cases hmem
  | cons kv rest ih =>
      intro d hmem hnd
      have hnd₂ : (kv.1 :: rest.map Prod.fst).Nodup := by simpa using hnd
      rcases List.mem_cons.mp hmem with heq | hmem₂
      · have hk1 : kv.1 = k := by rw [← heq]
        have hnotin : kv.1 ∉ rest.map Prod.fst := (List.nodup_cons.mp hnd₂).1
        have hrest : ∀ x ∈ rest, x.1 ≠ k := by
          intro x hx hxk
          apply hnotin
          rw [hk1, ← hxk]
          exact List.mem_map_of_mem Prod.fst hx
        calc getField (applySet (kv :: rest) d) k
            = getField (applySet rest (setField d kv.1 kv.2)) k := rfl
          _ = getField (setField d kv.1 kv.2) k :=
              getField_applySet_not_mem rest k _ hrest
          _ = some v := by rw [← heq]; exact getField_setField_self d k v
      · exact ih (setField d kv.1 kv.2) hmem₂ (List.nodup_cons.mp hnd₂).2

/-- The comments-collection `updateOne` rewrites exactly the first
matching document with `$set body`, reporting a matched count of 1 and
leaving every other document unchanged. -/
lemma updateOneComments_append (idC idM : String) (bd : Doc)
    (dpre dpost : List Doc) (d : Doc)
    (hpre : ∀ x ∈ dpre, commentMatches idC idM x = false)
    (hd : commentMatches idC idM d = true) :
    updateOneComments idC idM bd (dpre ++ d :: dpost) =
      (dpre ++ applySet bd d :: dpost, 1,
        if applySet bd d == d then 0 else 1) := by
  induction dpre with
  | nil => simp [updateOneComments, hd]
  | cons x rest ih =>
      have hx := hpre x (List.mem_cons_self x rest)
      have hr := ih (fun y hy => hpre y (List.mem_cons_of_mem x hy))
      simp [updateOneComments, hx, hr]

/-- Claim C5: POST and both PUT-variant-A handlers apply `$set` with the
whole parsed body onto the first comment document matching the combined
filter: the stored document becomes `applySet bd d`, and every binding
(k, v) of the body — including fields such as `movie_id` that are neither
`text` nor `user` — reads back as `v` on the updated document. -/
theorem c5_update_sets_entire_body
    (idM idC : String) (bd : Doc) (db : DB)
    (dpre dpost : List Doc) (d : Doc) (k : String) (v : BVal)
    (h1 : ObjectId.isValid idM = true) (h2 : ObjectId.isValid idC = true)
    (hbd : (fieldTruthy bd "text" || fieldTruthy bd "user") = true)
    (hdb : db.comments = dpre ++ d :: dpost)
    (hpre : ∀ x ∈ dpre, commentMatches idC idM x = false)
    (hd : commentMatches idC idM d = true)
    (hmem : (k, v) ∈ bd) (hnd : (bd.map Prod.fst).Nodup) :
    (CommentById.POST idM idC (some bd) db).db.comments =
      dpre ++ applySet bd d :: dpost ∧
    (CommentById.PUT idM idC (some bd) db).db.comments =
      dpre ++ applySet bd d :: dpost ∧
    (CommentById2.POST idM idC (some bd) db).db.comments =
      dpre ++ applySet bd d :: dpost ∧
    getField (applySet bd d) k = some v ∧
    (CommentById.POST idM idC (some bd) db).resp.body.status = 200 := by
  have hM0 := isValid_ne_empty idM h1
  have hC0 := isValid_ne_empty idC h2
  have hcond : (!(fieldTruthy bd "text") && !(fieldTruthy bd "user")) = false := by
    cases ht : fieldTruthy bd "text" <;> cases hu : fieldTruthy bd "user" <;> simp_all
  have hupd := updateOneComments_append idC idM bd dpre dpost d hpre hd
  refine ⟨?_, ?_, ?_, getField_applySet_mem bd k v d hmem hnd, ?_⟩
  · unfold CommentById.POST; rw [hdb]; simp [h1, h2, hM0, hC0, hcond, hupd]
  · unfold CommentById.PUT; rw [hdb]; simp [h1, h2, hM0, hC0, hcond, hupd]
  · unfold CommentById2.POST; rw [hdb]; simp [h1, h2, hM0, hC0, hcond, hupd]
  · unfold CommentById.POST; rw [hdb]; simp [h1, h2, hM0, hC0, hcond, hupd]

/-- A concrete store holding one comment under movie `idA`, used to
instantiate the `$set` whole-body theorem. -/
def dbC5 : DB :=
  ⟨[], [], [[("_id", BVal.oid idB), ("movie_id", BVal.oid idA), ("text", BVal.s "old")]]⟩

theorem c5_update_sets_entire_body_witness :
    ObjectId.isValid idA = true ∧ ObjectId.isValid idB = true ∧
    ("movie_id", BVal.oid idC0) ∈
      ([("text", BVal.s "new"), ("movie_id", BVal.oid idC0)] : Doc) ∧
    getField (applySet [("text", BVal.s "new"), ("movie_id", BVal.oid idC0)]
        [("_id", BVal.oid idB), ("movie_id", BVal.oid idA), ("text", BVal.s "old")])
        "movie_id" = some (BVal.oid idC0) ∧
    (CommentById.POST idA idB
        (some [("text", BVal.s "new"), ("movie_id", BVal.oid idC0)]) dbC5).db.comments =
      [] ++ applySet [("text", BVal.s "new"), ("movie_id", BVal.oid idC0)]
        [("_id", BVal.oid idB), ("movie_id", BVal.oid idA), ("text", BVal.s "old")] :: [] :=
  ⟨by decide, by decide, by decide,
    (c5_update_sets_entire_body idA idB
      [("text", BVal.s "new"), ("movie_id", BVal.oid idC0)] dbC5 [] []
      [("_id", BVal.oid idB), ("movie_id", BVal.oid idA), ("text", BVal.s "old")]
      "movie_id" (BVal.oid idC0)
      (by decide) (by decide) (by decide) (by decide) (by decide) (by decide)
      (by decide) (by decide)).2.2.2.1,
    (c5_update_sets_entire_body idA idB
      [("text", BVal.s "new"), ("movie_id", BVal.oid idC0)] dbC5 [] []
      [("_id", BVal.oid idB), ("movie_id", BVal.oid idA), ("text", BVal.s "old")]
      "movie_id" (BVal.oid idC0)
      (by decide) (by decide) (by decide) (by decide) (by decide) (by decide)
      (by decide) (by decide)).1⟩

/-- Claim C9 is refuted at a concrete input: on an invalid identifier the
two theater-by-id variants produce different response bodies — the first
says "Invalid Theaters ID", the second "Invalid theater ID" — so the
variants do not differ only in the transport-layer status encoding. -/
theorem c9_counterexample_bodies_differ_in_wording :
    (TheaterById.GET "zz" db0).resp.body ≠ (TheaterById2.GET "zz" db0).resp.body ∧
    (TheaterById.GET "zz" db0).resp.body.message = some "Invalid Theaters ID" ∧
    (TheaterById2.GET "zz" db0).resp.body.message = some "Invalid theater ID" ∧
    (TheaterById.GET "zz" db0).resp.body.status =
      (TheaterById2.GET "zz" db0).resp.body.status := by
  decide

/-- Claim C9 as amended: on every request and store state the two
theater-by-id variants agree on the body status field (400 when the id is
invalid, 404 when it is well-formed with no matching theater, 200 with the
theater as data otherwise) and on the data field; the first variant always
uses transport status 200 while the second mirrors the body status on the
transport layer; their message and error wording, however, differs. -/
theorem c9_amended_same_status_and_data (id : String) (db : DB) :
    (TheaterById.GET id db).resp.body.status = (TheaterById2.GET id db).resp.body.status ∧
    (TheaterById.GET id db).resp.body.data = (TheaterById2.GET id db).resp.body.data ∧
    (TheaterById.GET id db).resp.transport = 200 ∧
    (TheaterById2.GET id db).resp.transport = (TheaterById2.GET id db).resp.body.status ∧
    (TheaterById.GET id db).resp.body.status =
      (if ObjectId.isValid id then
        (match db.theaters.find? (fun d => getField d "_id" == some (BVal.oid id)) with
          | none => 404
          | some _ => 200)
       else 400) ∧
    (TheaterById.GET id db).resp.body.data =
      (match (if ObjectId.isValid id then
          db.theaters.find? (fun d => getField d "_id" == some (BVal.oid id))
        else none) with
        | none => none
        | some t => some (RData.theater t)) := by
  unfold TheaterById.GET TheaterById2.GET
  cases h : ObjectId.isValid id
  · simp [h]
  · cases hf : db.theaters.find? (fun d => getField d "_id" == some (BVal.oid id)) <;>
      simp [h, hf]

/-- A response body contains no data field whenever its status is not
200. -/
def noDataOnError (b : RBody) : Prop := b.status ≠ 200 → b.data = none

/-- Claim C10: every handler of the repository, on every input and store
state — and likewise the catch-all 500 body — returns a body whose data
field is absent whenever the body status is not 200. -/
theorem c10_error_bodies_have_no_data
    (idT idM idC : String) (body : Option Doc) (bodyB : Doc) (now : Nat)
    (db : DB) (m e : String) :
    noDataOnError (Theaters.GET db).resp.body ∧
    noDataOnError (Movies.GET db).resp.body ∧
    noDataOnError Movies.POST.1.body ∧
    noDataOnError Movies.PUT.1.body ∧
    noDataOnError Movies.DELETE.1.body ∧
    noDataOnError (TheaterById.GET idT db).resp.body ∧
    noDataOnError (TheaterById2.GET idT db).resp.body ∧
    noDataOnError (MovieComments.GET idM db).resp.body ∧
    noDataOnError (CommentById.GET idM idC db).resp.body ∧
    noDataOnError (CommentById2.GET idM idC db).resp.body ∧
    noDataOnError (CommentById.POST idM idC body db).resp.body ∧
    noDataOnError (CommentById2.POST idM idC body db).resp.body ∧
    noDataOnError (CommentById.PUT idM idC body db).resp.body ∧
    noDataOnError (CommentById2.PUT idM idC bodyB now db).resp.body ∧
    noDataOnError (CommentById.DELETE idM idC db).resp.body ∧
    noDataOnError (CommentById2.DELETE idM idC db).resp.body ∧
    noDataOnError (internalError m e) := by
  refine ⟨?_, ?_, ?_, ?_, ?_, ?_, ?_, ?_, ?_, ?_, ?_, ?_, ?_, ?_, ?_, ?_, ?_⟩
  · unfold Theaters.GET noDataOnError; simp
  · unfold Movies.GET noDataOnError; simp
  · unfold Movies.POST noDataOnError; simp
  · unfold Movies.PUT noDataOnError; simp
  · unfold Movies.DELETE noDataOnError; simp
  · unfold TheaterById.GET noDataOnError; repeat' split
    all_goals simp
  · unfold TheaterById2.GET noDataOnError; repeat' split
    all_goals simp
  · unfold MovieComments.GET noDataOnError; repeat' split
    all_goals simp
  · unfold CommentById.GET noDataOnError; repeat' split
    all_goals simp
  · unfold CommentById2.GET noDataOnError; repeat' split
    all_goals simp
  · unfold CommentById.POST noDataOnError; repeat' split
    all_goals try simp
    all_goals (split <;> simp)
  · unfold CommentById2.POST noDataOnError; repeat' split
    all_goals try simp
    all_goals (split <;> simp)
  · unfold CommentById.PUT noDataOnError; repeat' split
    all_goals try simp
    all_goals (split <;> simp)
  · unfold CommentById2.PUT noDataOnError; repeat' split
    all_goals try simp
    all_goals (split <;> simp)
  · unfold CommentById.DELETE noDataOnError; repeat' split
    all_goals try simp
    all_goals (split <;> simp)
  · unfold CommentById2.DELETE noDataOnError; repeat' split
    all_goals try simp
    all_goals (split <;> simp)
  · unfold internalError noDataOnError; simp

theorem c10_error_bodies_witness :
    (TheaterById.GET "zz" db0).resp.body.status ≠ 200 ∧
    (TheaterById.GET "zz" db0).resp.body.data = none :=
  ⟨by decide,
    (c10_error_bodies_have_no_data "zz" idA idB none [] 0 db0 "m" "e").2.2.2.2.2.1
      (by decide)⟩
